import Mathlib

set_option maxRecDepth 10000

/-!
Shallow embedding of the figiMapping repository:
  * `src/src/pulling_data_InvIdent.py` — `pull_data_from_database`
  * `src/src/mappingExchangeId_Code.py` — `map_exchange_id_to_code`
  * `src/src/figiAPI.py` — `get_figi` and the module-level orchestration
  * `src/main.py` — entry point

Python's effects (database connection, HTTP POST, process exit, in-place
DataFrame mutation) are made explicit: each effectful function takes an
environment describing the outcomes of its external calls and returns a
record of its result together with a trace of the effects it performed.
-/

namespace FigiMapping

/-! ## Database identifier fetcher (`pulling_data_InvIdent.py`) -/

/-- A row of the `InvestmentIdentifier` database table, with the columns the
query touches: `InvestmentId`, `ExchangeId`, `CurrencyId`, `Identifier`,
`IdentifierType`. -/
structure DbRow where
  investmentId : Int
  exchangeId : Int
  currencyId : String
  identifier : String
  identifierType : Int
deriving DecidableEq, Repr

/-- A row of the result table produced by the fetch query
(`InvestmentId, ExchangeId, RIGHT(CurrencyId, 3), Identifier`).
`exchangeCode = none` means the DataFrame has no `ExchangeCode` column yet;
`some v` means the column is present with value `v` (itself `none` for the
NaN produced by a missed dictionary lookup). -/
structure IdentRecord where
  investmentId : Int
  exchangeId : Int
  currency : String
  identifier : String
  exchangeCode : Option (Option String)
deriving DecidableEq, Repr

/-- Python's `', '.join(parts)`: the elements of `parts` stitched together
with the separator between consecutive elements. -/
def joinSep (sep : String) : List String → String
  | [] => ""
  | [s] => s
  | s :: rest => s ++ sep ++ joinSep sep rest

/-- Occurrences of a character in a string. -/
def countChar (s : String) (c : Char) : Nat :=
  s.data.count c

/-- The fixed part of the SQL text in `pull_data_from_database`, up to the
opening parenthesis of the `IN` clause (the f-string around
`{placeholders}`; note the table name is the literal `InvestmentIdentifier`,
the `TABLE_NAME` environment variable is read but unused). -/
def sqlQueryHead : String :=
  "SELECT top 10 InvestmentId, ExchangeId, RIGHT(CurrencyId, 3), Identifier FROM InvestmentIdentifier WHERE IdentifierType = 2 and Identifier IN ("

/-- `placeholders = ', '.join(['?'] * len(ids_to_search))`. -/
def placeholdersFor (ids_to_search : List String) : String :=
  joinSep ", " (List.replicate ids_to_search.length "?")

/-- `sql_query`, the query text built for a given identifier list. -/
def sql_query_for (ids_to_search : List String) : String :=
  sqlQueryHead ++ placeholdersFor ids_to_search ++ ")"

/-- SQL `RIGHT(s, n)`: the last `n` characters of `s` (all of `s` when it is
shorter than `n`). -/
def sqlRight (s : String) (n : Nat) : String :=
  String.mk (s.data.drop (s.data.length - n))

/-- Whether a database row satisfies the query's `WHERE` clause
(`IdentifierType = 2 and Identifier IN (...)` with the identifier list bound
to the placeholders). -/
def rowMatches (ids : List String) (r : DbRow) : Bool :=
  r.identifierType == 2 && ids.contains r.identifier

/-- Semantics of the built query executed against the table contents:
`SELECT top 10` keeps at most the first 10 rows of the filtered projection.
Modelled from the query text in `pull_data_from_database` (the SQL engine
itself is outside the repository). -/
def runQuery (rows : List DbRow) (ids : List String) : List IdentRecord :=
  (((rows.filter (rowMatches ids)).map (fun r =>
    { investmentId := r.investmentId
      exchangeId := r.exchangeId
      currency := sqlRight r.currencyId 3
      identifier := r.identifier
      exchangeCode := none : IdentRecord })).take 10)

/-- The Python exception classes that matter to `pull_data_from_database`:
`pyodbc.Error` (raised by `pyodbc.connect` on connection failure, and the
only class its `except` clause catches) and `pandas.errors.DatabaseError`
(pandas `read_sql_query` wraps the driver exception of a failed execution in
its own `DatabaseError`, which is not a subclass of `pyodbc.Error`). -/
inductive PyException where
  | pyodbcError
  | pandasDatabaseError
deriving DecidableEq, Repr

/-- How a call to `pull_data_from_database` ends: a normal `return` of the
result table, a `sys.exit(code)`, or an exception propagating to the
caller. -/
inductive PullOutcome where
  | ret (t : List IdentRecord)
  | exited (code : Nat)
  | raised (e : PyException)
deriving DecidableEq, Repr

/-- Environment for one invocation: whether `pyodbc.connect` raises a
`pyodbc.Error`, whether `pd.read_sql_query` fails (raising a pandas
`DatabaseError`), and the contents of the `InvestmentIdentifier` table used
when the query succeeds. -/
structure DBEnv where
  connectFails : Bool
  queryFails : Bool
  rows : List DbRow
deriving DecidableEq, Repr

/-- Result and effect trace of one call to `pull_data_from_database`:
the outcome, whether a connection was opened, whether `conn.close()` ran in
the `finally` block, what query text and parameter list (if any) were handed
to `pd.read_sql_query`, and how many times `pyodbc.connect` was called. -/
structure PullResult where
  outcome : PullOutcome
  opened : Bool
  closed : Bool
  executed : Option (String × List String)
  connectAttempts : Nat
deriving DecidableEq, Repr

/-- `pull_data_from_database(ids_to_search)`.

Control flow of the source: inside `try`, `pyodbc.connect` either raises
`pyodbc.Error` — caught by the `except pyodbc.Error` clause, which prints and
calls `sys.exit(1)`; the `finally` block then finds no `conn` in `locals()`
and closes nothing — or succeeds. On success the placeholder string and
`sql_query` are built and `pd.read_sql_query(sql_query, conn, params=
ids_to_search)` is called: if it fails it raises a pandas `DatabaseError`,
which the `except pyodbc.Error` clause does not catch, so it propagates;
otherwise the DataFrame is returned. Either way `conn` is in `locals()`, so
the `finally` block closes the connection. -/
def pull_data_from_database (env : DBEnv) (ids_to_search : List String) : PullResult :=
  if env.connectFails then
    { outcome := .exited 1
      opened := false
      closed := false
      executed := none
      connectAttempts := 1 }
  else
    let sql_query := sql_query_for ids_to_search
    if env.queryFails then
      { outcome := .raised .pandasDatabaseError
        opened := true
        closed := true
        executed := some (sql_query, ids_to_search)
        connectAttempts := 1 }
    else
      { outcome := .ret (runQuery env.rows ids_to_search)
        opened := true
        closed := true
        executed := some (sql_query, ids_to_search)
        connectAttempts := 1 }

/-- The literal identifier list of `main.py`. -/
def id_list : List String :=
  ["US3205175017", "US78462F1030", "US0378331005"]

/-- `main.py`: calls `pull_data_from_database(id_list)` and prints; if the
call returns normally the script completes and the process exit status is 0,
otherwise the call's termination (exit or uncaught exception) is the
script's. -/
def mainRun (env : DBEnv) : PullOutcome :=
  match (pull_data_from_database env id_list).outcome with
  | .ret _ => .exited 0
  | o => o

/-! ## Exchange code mapper (`mappingExchangeId_Code.py`) -/

/-- Python dictionary lookup used by `Series.map(exchange_mapping)`: the
value bound to the key, or the missing marker (NaN) when the key is absent.
The dictionary is modelled as an association list with the lookup returning
the first binding of the key (a Python dict has at most one). -/
def dictLookup (m : List (Int × String)) (k : Int) : Option String :=
  (m.find? (fun p => p.1 == k)).map (fun p => p.2)

/-- `sqlPulledIds['ExchangeCode'] = sqlPulledIds['ExchangeId'].map(exchange_mapping)`
applied to one row: the `ExchangeCode` column entry becomes the dictionary
lookup of the row's `ExchangeId` (present but null on a miss). -/
def setExchangeCode (exchange_mapping : List (Int × String)) (r : IdentRecord) : IdentRecord :=
  { r with exchangeCode := some (dictLookup exchange_mapping r.exchangeId) }

/-- Result and effect trace of `map_exchange_id_to_code`: the state of the
caller's DataFrame after the call (the column assignment mutates it in
place), the state of the dictionary after the call, the returned DataFrame,
and everything printed. -/
structure MapCallResult where
  sqlPulledIds : List IdentRecord
  exchange_mapping : List (Int × String)
  ret : List IdentRecord
  printed : List String
deriving DecidableEq, Repr

/-- `map_exchange_id_to_code(sqlPulledIds, exchange_mapping)`: assigns the
`ExchangeCode` column on the passed DataFrame itself (no copy is taken) and
returns that same DataFrame; the dictionary is only read; nothing is
printed. -/
def map_exchange_id_to_code (sqlPulledIds : List IdentRecord)
    (exchange_mapping : List (Int × String)) : MapCallResult :=
  let updated := sqlPulledIds.map (setExchangeCode exchange_mapping)
  { sqlPulledIds := updated
    exchange_mapping := exchange_mapping
    ret := updated
    printed := [] }

/-! ## External mapping client (`figiAPI.py`) -/

/-- One row of the request DataFrame sent to OpenFIGI. -/
structure MappingRequest where
  idType : String
  idValue : String
  exchCode : String
  currency : String
deriving DecidableEq, Repr

/-- `json.dumps` of one request record. -/
def jsonDumpsRecord (r : MappingRequest) : String :=
  "\x7b\"idType\": \"" ++ r.idType ++ "\", \"idValue\": \"" ++ r.idValue
    ++ "\", \"exchCode\": \"" ++ r.exchCode ++ "\", \"currency\": \""
    ++ r.currency ++ "\"\x7d"

/-- `json.dumps(payload)` for the list-of-records payload. -/
def jsonDumps (payload : List MappingRequest) : String :=
  "[" ++ joinSep ", " (payload.map jsonDumpsRecord) ++ "]"

/-- The response JSON is opaque to this system: a table of rows, each a list
of field-name/value pairs (`pd.DataFrame(json_data)`). -/
abbrev FigiTable := List (List (String × String))

/-- An HTTP response as `get_figi` sees it: status code, raw text, and the
parsed JSON body used on the success path. -/
structure HttpResponse where
  statusCode : Nat
  text : String
  body : FigiTable
deriving DecidableEq, Repr

/-- Outcome of `requests.post`: either the call itself raises (transport
failure such as a refused connection) or it yields a response object. -/
inductive PostOutcome where
  | raisedConn (msg : String)
  | ok (resp : HttpResponse)
deriving DecidableEq, Repr

/-- How a call to `get_figi` ends: an exception propagating out of the
function, the explicit `return None`, or a DataFrame built from the
response JSON. -/
inductive GetFigiResult where
  | raised (msg : String)
  | returnedNone
  | returnedTable (t : FigiTable)
deriving DecidableEq, Repr

/-- `response.raise_for_status()` raises exactly for HTTP error statuses
(400–599, per the requests library). -/
def raise_for_status_raises (status : Nat) : Bool :=
  400 ≤ status && status < 600

/-- The message of the `requests.HTTPError` raised by `raise_for_status`
(abstracted to the status code it reports). -/
def httpErrorMsg (status : Nat) : String :=
  toString status ++ " Error"

/-- `get_figi(payload)`: prints the serialized payload, then POSTs it. The
`requests.post` call is outside the `try`, so a transport failure propagates
uncaught. The `try` wraps only `response.raise_for_status()`: when that
raises (HTTP error status) the handler prints the error and the raw response
text and returns `None`; otherwise the parsed JSON is returned as a
DataFrame. Returns the function's outcome and everything printed. -/
def get_figi (payload : List MappingRequest) (post : PostOutcome) :
    GetFigiResult × List String :=
  let printed := [jsonDumps payload]
  match post with
  | .raisedConn msg => (.raised msg, printed)
  | .ok resp =>
    if raise_for_status_raises resp.statusCode then
      (.returnedNone,
        printed ++ ["Error: " ++ httpErrorMsg resp.statusCode,
                    "Response text: " ++ resp.text])
    else
      (.returnedTable resp.body, printed)

/-- The literal request DataFrame built at module level in `figiAPI.py`. -/
def module_payload : List MappingRequest :=
  [{ idType := "ID_ISIN", idValue := "US0378331005", exchCode := "US", currency := "USD" },
   { idType := "ID_ISIN", idValue := "US5949181045", exchCode := "US", currency := "USD" },
   { idType := "ID_ISIN", idValue := "DE0008469008", exchCode := "GF", currency := "EUR" }]

/-- How the module-level orchestration in `figiAPI.py` ends: the result
DataFrame written to `figi_output.xlsx`, an `AttributeError` crash from
calling `.to_excel` on `None`, or an exception propagated out of
`get_figi`. -/
inductive FigiScriptOutcome where
  | wroteFile (t : FigiTable)
  | attributeError
  | raised (msg : String)
deriving DecidableEq, Repr

/-- The module-level code of `figiAPI.py`:
`figi_df = get_figi(payload)`, `print(figi_df)`,
`figi_df.to_excel('figi_output.xlsx', index=False)` — with no check of
`figi_df` against `None` before the write, so a `None` result reaches
`.to_excel` and raises `AttributeError`. -/
def figiModuleRun (post : PostOutcome) : FigiScriptOutcome :=
  match (get_figi module_payload post).fst with
  | .raised msg => .raised msg
  | .returnedNone => .attributeError
  | .returnedTable t => .wroteFile t

/-! ## Helper lemmas -/

theorem joinSep_cons_cons (sep s a : String) (ss : List String) :
    joinSep sep (s :: a :: ss) = s ++ sep ++ joinSep sep (a :: ss) := rfl

theorem countChar_append (s t : String) (c : Char) :
    countChar (s ++ t) c = countChar s c + countChar t c := by
  simp [countChar, String.data_append, List.count_append]

theorem countChar_join_replicate (k : Nat) :
    countChar (joinSep ", " (List.replicate k "?")) '?' = k := by
  induction k with
  | zero => rfl
  | succ n ih =>
    cases n with
    | zero => rfl
    | succ m =>
      have h2 : List.replicate (m + 2) "?" = "?" :: "?" :: List.replicate m "?" := by
        simp [List.replicate_succ]
      have h1 : List.replicate (m + 1) "?" = "?" :: List.replicate m "?" := by
        simp [List.replicate_succ]
      rw [h2, joinSep_cons_cons, countChar_append, countChar_append, ← h1, ih,
        show countChar "?" '?' = 1 from rfl, show countChar ", " '?' = 0 from rfl]
      omega

theorem countChar_sqlQueryHead : countChar sqlQueryHead '?' = 0 := by decide

/-! ## Claims about the database identifier fetcher -/

/-- C1: for every non-empty identifier list `ids` of length `k` (and every
environment in which the connection opens), the built query is the fixed
`SELECT top 10 ... WHERE IdentifierType = 2 and Identifier IN (...)` text
with exactly `k` positional `?` placeholders, the pair handed to
`pd.read_sql_query` is exactly that query together with `ids` itself (same
length, same order), and the query text depends only on the length of `ids`,
never on the identifier strings (no interpolation). -/
theorem c1_parameterized_query (env : DBEnv) (ids : List String)
    (hne : ids ≠ []) (hc : env.connectFails = false) :
    countChar (sql_query_for ids) '?' = ids.length
    ∧ (pull_data_from_database env ids).executed = some (sql_query_for ids, ids)
    ∧ ∀ ids2 : List String, ids2.length = ids.length →
        sql_query_for ids2 = sql_query_for ids := by
  refine ⟨?_, ?_, ?_⟩
  · rw [sql_query_for, countChar_append, countChar_append, placeholdersFor,
      countChar_join_replicate, countChar_sqlQueryHead,
      show countChar ")" '?' = 0 from rfl]
    omega
  · cases hq : env.queryFails <;>
      simp [pull_data_from_database, hc, hq]
  · intro ids2 h
    rw [sql_query_for, sql_query_for, placeholdersFor, placeholdersFor, h]

/-- Witness for C1 at a concrete two-element identifier list. -/
theorem c1_witness :
    countChar (sql_query_for ["US3205175017", "US78462F1030"]) '?'
      = (["US3205175017", "US78462F1030"] : List String).length
    ∧ (pull_data_from_database ⟨false, false, []⟩ ["US3205175017", "US78462F1030"]).executed
      = some (sql_query_for ["US3205175017", "US78462F1030"],
              ["US3205175017", "US78462F1030"]) := by
  have h := c1_parameterized_query ⟨false, false, []⟩ ["US3205175017", "US78462F1030"]
    (by decide) rfl
  exact ⟨h.1, h.2.1⟩

/-- C3 (evaluating the code at the failing input `ids = []`): the empty list
is not rejected — the query is still built, now with zero placeholders so
that it ends in `IN ()`, and is handed to the execution layer; the call
completes without any validation error. -/
theorem c3_empty_list_not_rejected :
    (pull_data_from_database ⟨false, false, []⟩ []).executed = some (sql_query_for [], [])
    ∧ sql_query_for [] = sqlQueryHead ++ ")"
    ∧ sqlRight (sql_query_for []) 5 = "IN ()"
    ∧ (pull_data_from_database ⟨false, false, []⟩ []).outcome = .ret [] := by
  exact ⟨rfl, by decide, by decide, rfl⟩

/-- C4: on every exit path of `pull_data_from_database`, the connection is
closed exactly when it was opened: a successfully opened connection is
closed in the `finally` block, a never-opened connection is not. -/
theorem c4_connection_closed (env : DBEnv) (ids : List String) :
    (pull_data_from_database env ids).closed = (pull_data_from_database env ids).opened := by
  cases hc : env.connectFails <;> cases hq : env.queryFails <;>
    simp [pull_data_from_database, hc, hq]

/-- C5: when opening the connection fails, the call logs and terminates the
process with exit status 1 after a single connection attempt (no retry);
when connection and query both succeed, the entry-point script completes
normally with process exit status 0. -/
theorem c5_connect_failure_exits (env : DBEnv) (ids : List String) :
    (env.connectFails = true →
      (pull_data_from_database env ids).outcome = .exited 1
      ∧ (pull_data_from_database env ids).connectAttempts = 1)
    ∧ (env.connectFails = false → env.queryFails = false → mainRun env = .exited 0) := by
  constructor
  · intro h
    constructor <;> simp [pull_data_from_database, h]
  · intro h1 h2
    simp [mainRun, pull_data_from_database, h1, h2]

/-- Witness for C5: a failing connection exits with status 1; a succeeding
run of the entry point exits with status 0. -/
theorem c5_witness :
    (pull_data_from_database ⟨true, false, []⟩ ["US3205175017"]).outcome = .exited 1
    ∧ mainRun ⟨false, false, []⟩ = .exited 0 :=
  ⟨((c5_connect_failure_exits ⟨true, false, []⟩ ["US3205175017"]).1 rfl).1,
   (c5_connect_failure_exits ⟨false, false, []⟩ ["US3205175017"]).2 rfl rfl⟩

/-- C6: a failure during query execution, after the connection has opened,
surfaces as a pandas `DatabaseError` — not a `pyodbc.Error`, so the `except
pyodbc.Error` clause does not catch it — and propagates out of
`pull_data_from_database` as an uncaught exception, not converted to an exit
or a return. -/
theorem c6_query_failure_propagates (env : DBEnv) (ids : List String)
    (hc : env.connectFails = false) (hq : env.queryFails = true) :
    (pull_data_from_database env ids).outcome = .raised .pandasDatabaseError := by
  simp [pull_data_from_database, hc, hq]

/-- Witness for C6 at a concrete environment and identifier list. -/
theorem c6_witness :
    (pull_data_from_database ⟨false, true, []⟩ ["US3205175017"]).outcome
      = .raised .pandasDatabaseError :=
  c6_query_failure_propagates ⟨false, true, []⟩ ["US3205175017"] rfl rfl

/-- C9: for every non-empty identifier list, a normally returned result
table has at most 10 rows, and the built query text begins with the fixed
`SELECT top 10` regardless of the input (the cap is baked into the query,
not caller-configurable). -/
theorem c9_at_most_ten_rows (env : DBEnv) (ids : List String) (hne : ids ≠ []) :
    (∀ t, (pull_data_from_database env ids).outcome = .ret t → t.length ≤ 10)
    ∧ (sql_query_for ids).data.take 13 = "SELECT top 10".data := by
  constructor
  · intro t ht
    cases hc : env.connectFails <;> cases hq : env.queryFails <;>
      simp [pull_data_from_database, hc, hq] at ht
    subst ht
    simp [runQuery]
  · rw [sql_query_for, String.data_append, String.data_append, List.append_assoc]
    rw [List.take_append_of_le_length (by decide)]
    decide

/-- Rows for the C9 witness: twelve matching rows in the database table. -/
def manyRows : List DbRow :=
  List.replicate 12 { investmentId := 1, exchangeId := 7, currencyId := "XUSD",
                      identifier := "US3205175017", identifierType := 2 }

/-- Witness for C9: with twelve matching rows in the table, the returned
result still has at most 10 rows. -/
theorem c9_witness :
    (runQuery manyRows ["US3205175017"]).length ≤ 10 :=
  (c9_at_most_ten_rows ⟨false, false, manyRows⟩ ["US3205175017"] (by decide)).1
    (runQuery manyRows ["US3205175017"]) rfl

/-! ## Claims about the exchange code mapper -/

/-- A concrete one-row pulled table, with no `ExchangeCode` column yet. -/
def sampleTable : List IdentRecord :=
  [{ investmentId := 1, exchangeId := 7, currency := "USD",
     identifier := "US3205175017", exchangeCode := none }]

/-- A concrete exchange mapping. -/
def sampleMapping : List (Int × String) := [(7, "NYSE")]

/-- C7 counterexample: on a concrete table and mapping, the call mutates the
input records table — after the call the caller's DataFrame differs from the
one passed in (the `ExchangeCode` column has been assigned on it in
place). -/
theorem c7_counterexample :
    (map_exchange_id_to_code sampleTable sampleMapping).sqlPulledIds ≠ sampleTable := by
  decide

/-- C7 (amended): `map_exchange_id_to_code` performs no I/O and does not
mutate the mapping dictionary, but it mutates the input records table in
place (assigning the `ExchangeCode` column on the passed DataFrame) and
returns that same mutated table. -/
theorem c7_amended (t : List IdentRecord) (m : List (Int × String)) :
    (map_exchange_id_to_code t m).printed = []
    ∧ (map_exchange_id_to_code t m).exchange_mapping = m
    ∧ (map_exchange_id_to_code t m).ret = (map_exchange_id_to_code t m).sqlPulledIds :=
  ⟨rfl, rfl, rfl⟩

/-- C8: the returned table has exactly the input's rows, in order and count
(position by position all base fields agree, out-of-range positions are
absent on both sides), with `ExchangeCode` set to the dictionary lookup of
the row's `ExchangeId`; the lookup is the missing marker exactly when the
key is absent from the mapping; and the call is deterministic. -/
theorem c8_enrichment (t : List IdentRecord) (m : List (Int × String)) :
    (map_exchange_id_to_code t m).ret.length = t.length
    ∧ (∀ i : Nat,
        ((map_exchange_id_to_code t m).ret[i]?).map IdentRecord.investmentId
          = (t[i]?).map IdentRecord.investmentId
        ∧ ((map_exchange_id_to_code t m).ret[i]?).map IdentRecord.exchangeId
          = (t[i]?).map IdentRecord.exchangeId
        ∧ ((map_exchange_id_to_code t m).ret[i]?).map IdentRecord.currency
          = (t[i]?).map IdentRecord.currency
        ∧ ((map_exchange_id_to_code t m).ret[i]?).map IdentRecord.identifier
          = (t[i]?).map IdentRecord.identifier
        ∧ ((map_exchange_id_to_code t m).ret[i]?).map IdentRecord.exchangeCode
          = (t[i]?).map (fun r => some (dictLookup m r.exchangeId)))
    ∧ (∀ k : Int, dictLookup m k = none ↔ ∀ v : String, (k, v) ∉ m)
    ∧ map_exchange_id_to_code t m = map_exchange_id_to_code t m := by
  refine ⟨by simp [map_exchange_id_to_code], ?_, ?_, rfl⟩
  · intro i
    cases h : t[i]? <;>
      simp [map_exchange_id_to_code, List.getElem?_map, h, setExchangeCode]
  · intro k
    rw [dictLookup, Option.map_eq_none', List.find?_eq_none]
    constructor
    · intro h v hv
      have := h (k, v) hv
      simp at this
    · intro h p hp
      intro hk
      exact h p.2 (by rw [show (k, p.2) = p from by rw [← eq_of_beq hk]]; exact hp)

/-- Witness for C8 at the concrete table and mapping: row 0 keeps its fields
and gets `ExchangeCode = NYSE`, and a key outside the mapping (8) yields the
missing marker. -/
theorem c8_witness :
    ((map_exchange_id_to_code sampleTable sampleMapping).ret[0]?).map IdentRecord.exchangeCode
      = (sampleTable[0]?).map (fun r => some (dictLookup sampleMapping r.exchangeId))
    ∧ dictLookup sampleMapping 8 = none :=
  ⟨((c8_enrichment sampleTable sampleMapping).2.1 0).2.2.2.2,
   ((c8_enrichment sampleTable sampleMapping).2.2.1 8).2
     (by intro v hv; simp [sampleMapping] at hv)⟩

/-! ## Claims about the external mapping client -/

/-- C2 counterexample: at a concrete transport-level failure (connection
refused), `get_figi` does not return the `None` sentinel — the exception
from `requests.post` (which stands outside the `try` block) propagates out
of the function. -/
theorem c2_counterexample :
    (get_figi module_payload (.raisedConn "connection refused")).fst
      = .raised "connection refused"
    ∧ (get_figi module_payload (.raisedConn "connection refused")).fst
      ≠ .returnedNone :=
  ⟨rfl, by decide⟩

/-- C2 (amended): when the POST yields a response with an HTTP error status
(400–599), `get_figi` catches the `raise_for_status` failure, prints
diagnostics containing the error and the raw response text, and returns
`None`; but a transport-level failure raised by `requests.post` itself is
not caught and propagates out of the function. -/
theorem c2_amended (payload : List MappingRequest) (resp : HttpResponse) (msg : String)
    (h : raise_for_status_raises resp.statusCode = true) :
    (get_figi payload (.ok resp)).fst = .returnedNone
    ∧ ("Response text: " ++ resp.text) ∈ (get_figi payload (.ok resp)).snd
    ∧ ("Error: " ++ httpErrorMsg resp.statusCode) ∈ (get_figi payload (.ok resp)).snd
    ∧ (get_figi payload (.raisedConn msg)).fst = .raised msg := by
  refine ⟨?_, ?_, ?_, rfl⟩ <;> simp [get_figi, h]

/-- Witness for C2 (amended) at a concrete 404 response and a concrete
transport failure. -/
theorem c2_witness :
    (get_figi module_payload
        (.ok { statusCode := 404, text := "Not Found", body := [] })).fst
      = .returnedNone
    ∧ (get_figi module_payload (.raisedConn "refused")).fst = .raised "refused" := by
  have h := c2_amended module_payload
    { statusCode := 404, text := "Not Found", body := [] } "refused" (by decide)
  exact ⟨h.1, h.2.2.2⟩

/-- C10 (evaluating the code at the failing input): whenever `get_figi`
returns the `None` sentinel (any HTTP error status), the module-level
orchestration does not check it — `figi_df.to_excel` is called on `None`
and the script crashes with an `AttributeError`; no guarded skip of the
write exists. -/
theorem c10_no_sentinel_check (resp : HttpResponse)
    (h : raise_for_status_raises resp.statusCode = true) :
    figiModuleRun (.ok resp) = .attributeError := by
  simp [figiModuleRun, get_figi, h]

/-- Witness for C10 at a concrete 404 response. -/
theorem c10_witness :
    figiModuleRun (.ok { statusCode := 404, text := "Not Found", body := [] })
      = .attributeError :=
  c10_no_sentinel_check { statusCode := 404, text := "Not Found", body := [] } (by decide)

end FigiMapping
